import Mathlib

/-! Shallow embedding of the interactive geospatial dashboard in src/app.py.

The embedding covers the data model (road rows with a KOD category,
settlements with a name and a population, ports with a name), the one-time
data load with its failure flag and message, the two spatial query
pipelines (buffer every source geometry, union the buffers, select the
points within the dissolved region, aggregate), the port de-duplication by
name, the figure construction with its fixed trace order, the viewport
choice from the relayout data, and the load-failure short circuit.

All spatial operations (buffering, union, containment, reprojection,
centroid) are delegated by the source to an external geometry library;
they are modelled here as an abstract record of operations, `GeoEngine`.
A concrete executable instance over integer points and disc regions,
`discEngine`, is provided so that properties can be evaluated on concrete
inputs. -/

/-- A longitude/latitude pair, as used for plotting after reprojection to
WGS84 and for the map viewport center. -/
structure Center where
  lat : ℚ
  lon : ℚ
  deriving DecidableEq, Repr

/-- A value stored in the relayout data the map echoes back: a number
(for mapbox.zoom), a center (for mapbox.center), or some other value. -/
inductive RVal where
  | num (q : ℚ)
  | ctr (c : Center)
  | misc
  deriving DecidableEq, Repr

/-- The relayout data supplied by the map widget: a keyed collection,
possibly absent (None) or empty. -/
abbrev RelayoutData := List (String × RVal)

/-- One row of the ROADS shapefile: the integer KOD category and the
line geometry (abstract type RG). -/
structure RoadRow (RG : Type) where
  KOD : Int
  geom : RG
  deriving DecidableEq, Repr

/-- One row of naselja.csv: settlement name NAZIV_NAS, population
BR_ST_01, and the point geometry built from EASTING/NORTHING. -/
structure Settlement (P : Type) where
  NAZIV_NAS : String
  BR_ST_01 : Nat
  geom : P
  deriving DecidableEq, Repr

/-- One row of m_luke.csv: port name NAZIV and the point geometry built
from EASTING/NORTHING. -/
structure Port (P : Type) where
  NAZIV : String
  geom : P
  deriving DecidableEq, Repr

/-- The geometry engine the source delegates to (geopandas/shapely):
buffering a road line or a point by a radius, dissolving a list of
buffers into one region, the within containment test used by the spatial
join, reprojection of a point to WGS84 for plotting, reprojection of a
region for plotting, and the centroid of the union of road geometries in
WGS84 (used once for the default map center). -/
structure GeoEngine (P RG Rg : Type) where
  bufferRoad : RG → ℚ → Rg
  bufferPt : P → ℚ → Rg
  unionAll : List Rg → Rg
  within : P → Rg → Bool
  toWGS84 : P → Center
  regionWGS84 : Rg → Rg
  centroidLonLat : List RG → Center

/-- Helper for first-occurrence de-duplication: drop every element whose
key was already seen earlier (pandas drop_duplicates with keep equal to
first). -/
def dedupFirstAux {α β : Type} [DecidableEq β] (key : α → β) (seen : List β) :
    List α → List α
  | [] => []
  | x :: xs =>
    if key x ∈ seen then dedupFirstAux key seen xs
    else x :: dedupFirstAux key (key x :: seen) xs

/-- First-occurrence de-duplication by a key, as performed by
drop_duplicates on the NAZIV column: keeps, for every key value, the
first element carrying it; the relative order of kept elements is the
input order. -/
def dedupFirst {α β : Type} [DecidableEq β] (key : α → β) (l : List α) : List α :=
  dedupFirstAux key [] l

/-- The dissolved buffer region of the roads section: buffer every
filtered road geometry by the distance, then union all buffer polygons
(AID.buffer followed by union_all in the source). -/
def roadsDissolved {P RG Rg : Type} (E : GeoEngine P RG Rg)
    (aid : List (RoadRow RG)) (buffer_distance : ℚ) : Rg :=
  E.unionAll (aid.map (fun r => E.bufferRoad r.geom buffer_distance))

/-- Result of the roads-section query: the selected settlements, the
dissolved buffer region, and the four aggregates of the bar chart
calculations. -/
structure RoadsResult (P Rg : Type) where
  selected : List (Settlement P)
  dissolved : Rg
  popIn : Nat
  popOut : Nat
  countIn : Nat
  countOut : Nat

/-- The geospatial analysis and bar-chart calculations of
update_roads_section: buffer, dissolve, select the settlements within the
region (sjoin with predicate within), then aggregate population and
counts; the outside aggregates are total minus inside. -/
def roadsQuery {P RG Rg : Type} (E : GeoEngine P RG Rg)
    (aid : List (RoadRow RG)) (naselja : List (Settlement P))
    (buffer_distance : ℚ) : RoadsResult P Rg :=
  let dissolved := roadsDissolved E aid buffer_distance
  let selected_naselja := naselja.filter (fun s => E.within s.geom dissolved)
  let pop_in_buffer := (selected_naselja.map (fun s => s.BR_ST_01)).sum
  let pop_out_buffer := (naselja.map (fun s => s.BR_ST_01)).sum - pop_in_buffer
  let count_in_buffer := selected_naselja.length
  let count_out_buffer := naselja.length - count_in_buffer
  { selected := selected_naselja, dissolved := dissolved,
    popIn := pop_in_buffer, popOut := pop_out_buffer,
    countIn := count_in_buffer, countOut := count_out_buffer }

/-- The dissolved buffer region of the ports section: buffer every large
settlement point by the distance, then union all buffer polygons. -/
def portsDissolved {P RG Rg : Type} (E : GeoEngine P RG Rg)
    (large_settlements : List (Settlement P)) (buffer_distance : ℚ) : Rg :=
  E.unionAll (large_settlements.map (fun s => E.bufferPt s.geom buffer_distance))

/-- Result of the ports-section query: the de-duplicated selected ports,
the dissolved buffer region, and the two count aggregates. -/
structure PortsResult (P Rg : Type) where
  selected : List (Port P)
  dissolved : Rg
  countIn : Nat
  countOut : Nat

/-- The geospatial analysis and bar-chart calculations of
update_ports_section: buffer the large settlements, dissolve, select the
ports within the region, de-duplicate the selected ports on the NAZIV
column (first occurrence kept), then count; the outside count is the raw
port row count minus the de-duplicated inside count. -/
def portsQuery {P RG Rg : Type} (E : GeoEngine P RG Rg)
    (large_settlements : List (Settlement P)) (m_luke : List (Port P))
    (buffer_distance : ℚ) : PortsResult P Rg :=
  let dissolved := portsDissolved E large_settlements buffer_distance
  let selected_raw := m_luke.filter (fun p => E.within p.geom dissolved)
  let selected_ports := dedupFirst (fun p => p.NAZIV) selected_raw
  { selected := selected_ports, dissolved := dissolved,
    countIn := selected_ports.length,
    countOut := m_luke.length - selected_ports.length }

/-- Marker styling of a scattermapbox trace. -/
structure Marker where
  size : ℚ
  color : String
  opacity : Option ℚ
  symbol : Option String
  deriving DecidableEq, Repr

/-- A plotly trace as added by the callbacks: the translucent filled
buffer polygon (Choroplethmapbox), a point layer (Scattermapbox) with its
reprojected points, marker styling, optional hover text and hoverinfo
mode, or a bar trace of the summary charts. -/
inductive Trace (Rg : Type) where
  | choroplethmapbox (geo : Rg) (fillColor : String) (lineColor : String)
      (name : String)
  | scattermapbox (pts : List Center) (marker : Marker)
      (text : Option (List String)) (hoverinfo : String) (name : String)
  | bar (x : List String) (y : List Nat) (colors : List String) (name : String)
  deriving DecidableEq, Repr

/-- A plotly figure: the ordered trace list plus the layout fields the
callbacks set. -/
structure Figure (Rg : Type) where
  traces : List (Trace Rg)
  mapboxZoom : Option ℚ
  mapboxCenter : Option Center
  titleText : Option String
  template : String
  deriving DecidableEq, Repr

/-- The fixed error placeholder figure of the load-failure branch: an
empty figure with the dark template and the title Error. -/
def errorFig (Rg : Type) : Figure Rg :=
  { traces := [], mapboxZoom := none, mapboxCenter := none,
    titleText := some "Error", template := "plotly_dark" }

/-- The name attribute of a trace. -/
def traceNameOf {Rg : Type} : Trace Rg → String
  | Trace.choroplethmapbox _ _ _ nm => nm
  | Trace.scattermapbox _ _ _ _ nm => nm
  | Trace.bar _ _ _ nm => nm

/-- Insert a thousands separator into a reversed digit list: k counts the
digits already emitted. -/
def commaRev : List Char → Nat → List Char
  | [], _ => []
  | c :: cs, k =>
    if 0 < k ∧ k % 3 = 0 then ',' :: c :: commaRev cs (k + 1)
    else c :: commaRev cs (k + 1)

/-- A natural number rendered with thousands separators, as the Python
format with a comma flag renders an integral value. -/
def commaNat (n : Nat) : String :=
  String.mk ((commaRev (toString n).toList.reverse 0).reverse)

/-- An integer rendered with thousands separators. -/
def commaInt (i : Int) : String :=
  if i < 0 then "-" ++ commaNat i.natAbs else commaNat i.natAbs

/-- The distance scaled to kilometers and rendered with one decimal digit
as in the ports-section title (rounds half up where the Python float
format rounds half to even; the slider steps never produce a tie). -/
def kmFmt (d : ℚ) : String :=
  let t : Int := Rat.floor (d / 100 + 1 / 2)
  let ip := commaInt (t / 10)
  let fp := (t % 10).natAbs
  s!"{ip}.{fp}"

/-- The viewport choice both callbacks make: keep the default zoom 6 and
the stored default center unless the relayout data is present, non-empty
(Python truthiness of the dict) and holds the key mapbox.zoom, in which
case the echoed zoom and center are reused verbatim.  Looking up
mapbox.center when mapbox.zoom is present but mapbox.center is absent (or
either key holds a value of an unexpected shape) raises in the source; it
is modelled as none. -/
def pickViewport (defaultCenter : Center) (relayout_data : Option RelayoutData) :
    Option (ℚ × Center) :=
  match relayout_data with
  | none => some (6, defaultCenter)
  | some r =>
    if r.isEmpty then some (6, defaultCenter)
    else
      match r.lookup "mapbox.zoom" with
      | none => some (6, defaultCenter)
      | some (RVal.num z) =>
        match r.lookup "mapbox.center" with
        | some (RVal.ctr c) => some (z, c)
        | _ => none
      | some _ => none

/-- The load error message built in the except branch of the startup
load, embedding the missing file name. -/
def ERROR_MESSAGE (fname : String) : String :=
  "Error: Could not load data file \x27" ++ fname ++
    "\x27. Make sure all data files are in the same directory."

/-- The raw content of the three input files, available when every file
loads. -/
structure RawData (P RG : Type) where
  roads : List (RoadRow RG)
  naselja : List (Settlement P)
  mLuke : List (Port P)
  deriving DecidableEq, Repr

/-- The process-wide state after the one-time startup load: the success
flag, the error message of the failure branch, and on success the loaded
collections, the two static derived subsets (AID road filter, large
settlements) and the default map center. -/
structure AppState (P RG : Type) where
  loaded : Bool
  errorMessage : String
  aid : List (RoadRow RG)
  naselja : List (Settlement P)
  mLuke : List (Port P)
  largeSettlements : List (Settlement P)
  mapCenter : Center

/-- The one-time startup load of the source: on failure (a missing file,
identified by name) only the flag and the message are set and no data
binding exists, modelled by empty collections that the callbacks never
read; on success the roads are filtered to KOD 1 or 3 (AID), the large
settlements are the settlements with population strictly above 10000, and
the default map center is the centroid of the union of the filtered road
geometries in WGS84. -/
def loadData {P RG Rg : Type} (E : GeoEngine P RG Rg)
    (files : Except String (RawData P RG)) : AppState P RG :=
  match files with
  | Except.error fname =>
    { loaded := false, errorMessage := ERROR_MESSAGE fname,
      aid := [], naselja := [], mLuke := [], largeSettlements := [],
      mapCenter := { lat := 0, lon := 0 } }
  | Except.ok raw =>
    let AID := raw.roads.filter (fun r => r.KOD == 1 || r.KOD == 3)
    { loaded := true, errorMessage := "",
      aid := AID, naselja := raw.naselja, mLuke := raw.mLuke,
      largeSettlements := raw.naselja.filter (fun s => decide (10000 < s.BR_ST_01)),
      mapCenter := E.centroidLonLat (AID.map (fun r => r.geom)) }

/-- The callback of the roads section: short-circuit to the fixed error
placeholder when the load failed; otherwise run the query, build the map
figure with its three traces in source order (buffer polygon, all
settlements without hover text, selected settlements with name labels),
choose the viewport, build the two stacked bar charts and the title. -/
def update_roads_section {P RG Rg : Type} (E : GeoEngine P RG Rg)
    (st : AppState P RG) (buffer_distance : ℚ)
    (relayout_data : Option RelayoutData) :
    Option (Figure Rg × String × Figure Rg) :=
  if st.loaded = false then
    some (errorFig Rg, st.errorMessage, errorFig Rg)
  else
    let res := roadsQuery E st.aid st.naselja buffer_distance
    let buffer_wgs84 := E.regionWGS84 res.dissolved
    let map_traces : List (Trace Rg) :=
      [Trace.choroplethmapbox buffer_wgs84 "rgba(0, 100, 255, 0.4)" "cyan"
        "Buffer Zone",
       Trace.scattermapbox (st.naselja.map (fun s => E.toWGS84 s.geom))
         { size := 5, color := "#7f7f7f", opacity := some (7 / 10), symbol := none }
         none "none" "All Settlements",
       Trace.scattermapbox (res.selected.map (fun s => E.toWGS84 s.geom))
         { size := 8, color := "yellow", opacity := some (9 / 10), symbol := none }
         (some (res.selected.map (fun s => s.NAZIV_NAS))) "text"
         "Selected Settlements"]
    match pickViewport st.mapCenter relayout_data with
    | none => none
    | some (zoom, center) =>
      let map_fig : Figure Rg :=
        { traces := map_traces, mapboxZoom := some zoom,
          mapboxCenter := some center, titleText := none,
          template := "plotly_dark" }
      let bar_fig : Figure Rg :=
        { traces :=
            [Trace.bar ["Inside", "Outside"] [res.popIn, res.popOut]
              ["#FFC300", "#581845"] "Population",
             Trace.bar ["Inside", "Outside"] [res.countIn, res.countOut]
              ["#DAF7A6", "#900C3F"] "Settlements"],
          mapboxZoom := none, mapboxCenter := none,
          titleText := some "Data Summary", template := "plotly_dark" }
      let popStr := commaNat res.popIn
      let title_string := s!"Population within {buffer_distance} meters: {popStr}"
      some (map_fig, title_string, bar_fig)

/-- The callback of the ports section: short-circuit to the fixed error
placeholder when the load failed; otherwise run the query, build the map
figure with its four traces in source order (buffer polygon, large
settlements with name labels, all ports without hover text, selected
ports with name labels), choose the viewport, build the single bar chart
and the title. -/
def update_ports_section {P RG Rg : Type} (E : GeoEngine P RG Rg)
    (st : AppState P RG) (buffer_distance : ℚ)
    (relayout_data : Option RelayoutData) :
    Option (Figure Rg × String × Figure Rg) :=
  if st.loaded = false then
    some (errorFig Rg, st.errorMessage, errorFig Rg)
  else
    let res := portsQuery E st.largeSettlements st.mLuke buffer_distance
    let buffer_wgs84 := E.regionWGS84 res.dissolved
    let map_traces : List (Trace Rg) :=
      [Trace.choroplethmapbox buffer_wgs84 "rgba(255, 0, 100, 0.4)" "magenta"
        "Buffer Zone",
       Trace.scattermapbox (st.largeSettlements.map (fun s => E.toWGS84 s.geom))
         { size := 10, color := "cyan", opacity := none, symbol := some "star" }
         (some (st.largeSettlements.map (fun s => s.NAZIV_NAS))) "text"
         "Large Settlements (>10k)",
       Trace.scattermapbox (st.mLuke.map (fun p => E.toWGS84 p.geom))
         { size := 5, color := "#7f7f7f", opacity := some (7 / 10), symbol := none }
         none "none" "All Ports",
       Trace.scattermapbox (res.selected.map (fun p => E.toWGS84 p.geom))
         { size := 8, color := "lime", opacity := some (9 / 10), symbol := none }
         (some (res.selected.map (fun p => p.NAZIV))) "text" "Selected Ports"]
    match pickViewport st.mapCenter relayout_data with
    | none => none
    | some (zoom, center) =>
      let map_fig : Figure Rg :=
        { traces := map_traces, mapboxZoom := some zoom,
          mapboxCenter := some center, titleText := none,
          template := "plotly_dark" }
      let bar_fig : Figure Rg :=
        { traces :=
            [Trace.bar ["Inside", "Outside"] [res.countIn, res.countOut]
              ["#00CFE8", "#630C3F"] "Ports"],
          mapboxZoom := none, mapboxCenter := none,
          titleText := some "Ports Summary", template := "plotly_dark" }
      let kmStr := kmFmt buffer_distance
      let cntIn := res.countIn
      let title_string :=
        s!"Number of ports within {kmStr} km of large settlements: {cntIn}"
      some (map_fig, title_string, bar_fig)

/-- Projection of a callback output onto the map figure viewport (zoom
and center). -/
def mapViewport {Rg : Type} (out : Option (Figure Rg × String × Figure Rg)) :
    Option (Option ℚ × Option Center) :=
  out.map (fun o => (o.1.mapboxZoom, o.1.mapboxCenter))

/-- Projection of a callback output onto the names of the map figure
traces, in their z-order. -/
def mapTraceNames {Rg : Type} (out : Option (Figure Rg × String × Figure Rg)) :
    Option (List String) :=
  out.map (fun o => o.1.traces.map traceNameOf)

/-- Squared euclidean distance of two integer points. -/
def distSq (a b : Int × Int) : Int :=
  (a.1 - b.1) * (a.1 - b.1) + (a.2 - b.2) * (a.2 - b.2)

/-- Membership in a disc region: strictly within some disc.  The strict
inequality distance squared less than radius squared is encoded by cross
multiplication with the (positive) denominator of the rational radius, so
that it evaluates with integer arithmetic only. -/
def discWithin (p : Int × Int) (reg : List ((Int × Int) × ℚ)) : Bool :=
  reg.any (fun cr =>
    decide (distSq p cr.1 * (cr.2.den : Int) * (cr.2.den : Int) <
      cr.2.num * cr.2.num))

/-- A concrete executable geometry engine over integer points: every
geometry buffers to one disc, union is list concatenation, within is
strict disc membership, reprojection is the identity on coordinates. -/
def discEngine : GeoEngine (Int × Int) (Int × Int) (List ((Int × Int) × ℚ)) :=
  { bufferRoad := fun g d => [(g, d)],
    bufferPt := fun p d => [(p, d)],
    unionAll := fun rs => rs.flatten,
    within := discWithin,
    toWGS84 := fun p => { lat := (p.2 : ℚ), lon := (p.1 : ℚ) },
    regionWGS84 := fun r => r,
    centroidLonLat := fun _ => { lat := 0, lon := 0 } }

/-- A one-segment sample road network of category 1. -/
def sampleRoads : List (RoadRow (Int × Int)) := [{ KOD := 1, geom := (0, 0) }]

/-- Two sample settlements: a large one close to the road and a small one
far away. -/
def sampleNas : List (Settlement (Int × Int)) :=
  [{ NAZIV_NAS := "Split", BR_ST_01 := 20000, geom := (0, 1) },
   { NAZIV_NAS := "Hvar", BR_ST_01 := 500, geom := (100, 100) }]

/-- Three sample ports: two rows sharing one name near the large
settlement, one far away. -/
def samplePorts : List (Port (Int × Int)) :=
  [{ NAZIV := "Marina X", geom := (0, 2) },
   { NAZIV := "Marina X", geom := (0, 3) },
   { NAZIV := "Far Marina", geom := (999, 999) }]

/-- The sample raw data bundle. -/
def sampleRaw : RawData (Int × Int) (Int × Int) :=
  { roads := sampleRoads, naselja := sampleNas, mLuke := samplePorts }

/-- The app state obtained from a successful load of the sample data. -/
def sampleState : AppState (Int × Int) (Int × Int) :=
  loadData discEngine (Except.ok sampleRaw)

/-- A sample relayout echo holding a full viewport. -/
def sampleRelayout : RelayoutData :=
  [("mapbox.zoom", RVal.num 7), ("mapbox.center", RVal.ctr { lat := 43, lon := 16 })]

/-- A sample relayout echo holding a center but no zoom key. -/
def sampleNoZoom : RelayoutData := [("mapbox.center", RVal.ctr { lat := 1, lon := 2 })]

/-- The two duplicate-named sample ports. -/
def dupPorts : List (Port (Int × Int)) :=
  [{ NAZIV := "Marina X", geom := (0, 2) }, { NAZIV := "Marina X", geom := (0, 3) }]

/-- The sample port far outside every sample buffer. -/
def farPort : Port (Int × Int) := { NAZIV := "Far Marina", geom := (999, 999) }

/-- The de-duplication helper always yields a sublist of its input. -/
theorem dedupFirstAux_sublist {α β : Type} [DecidableEq β] (key : α → β) :
    ∀ (l : List α) (seen : List β), List.Sublist (dedupFirstAux key seen l) l := by
  intro l
  induction l with
  | nil => intro seen; exact List.Sublist.refl _
  | cons x xs ih =>
    intro seen
    rw [dedupFirstAux]
    by_cases hx : key x ∈ seen
    · rw [if_pos hx]; exact (ih seen).cons x
    · rw [if_neg hx]; exact (ih (key x :: seen)).cons₂ x

/-- De-duplication never lengthens a list. -/
theorem dedupFirst_length_le {α β : Type} [DecidableEq β] (key : α → β) (l : List α) :
    (dedupFirst key l).length ≤ l.length :=
  (dedupFirstAux_sublist key l []).length_le

/-- Filtering a de-duplicated list for one key value yields nothing when
the key was already seen, and exactly the first input element with that
key otherwise. -/
theorem dedupFirstAux_filter_key {α β : Type} [DecidableEq β] (key : α → β) (n : β) :
    ∀ (l : List α) (seen : List β),
      (dedupFirstAux key seen l).filter (fun x => decide (key x = n))
        = if n ∈ seen then [] else (l.find? (fun x => decide (key x = n))).toList := by
  intro l
  induction l with
  | nil => intro seen; simp [dedupFirstAux]
  | cons x xs ih =>
    intro seen
    rw [dedupFirstAux]
    by_cases hx : key x ∈ seen
    · rw [if_pos hx, ih seen]
      by_cases hn : n ∈ seen
      · rw [if_pos hn, if_pos hn]
      · have hxn : (decide (key x = n)) = false := by
          simp only [decide_eq_false_iff_not]
          intro he; exact hn (he ▸ hx)
        rw [if_neg hn, if_neg hn, List.find?_cons, hxn]
    · rw [if_neg hx, List.filter_cons, ih (key x :: seen)]
      by_cases hxn : key x = n
      · subst hxn
        rw [if_pos (List.mem_cons_self _ _), if_neg hx, List.find?_cons]
        have hdx : (decide (key x = key x)) = true := by simp
        rw [hdx]
        simp
      · have hdx : (decide (key x = n)) = false := by
          simp only [decide_eq_false_iff_not]; exact hxn
        have hmem : (n ∈ key x :: seen) ↔ (n ∈ seen) := by
          constructor
          · intro h
            rcases List.mem_cons.mp h with h1 | h2
            · exact absurd h1.symm hxn
            · exact h2
          · exact fun h => List.mem_cons_of_mem _ h
        rw [List.find?_cons, hdx]
        simp only [hdx, Bool.false_eq_true, if_false, hmem]

/-- Filtering a de-duplicated list for one key value yields exactly the
first input element with that key. -/
theorem dedupFirst_filter_key {α β : Type} [DecidableEq β] (key : α → β) (n : β)
    (l : List α) :
    (dedupFirst key l).filter (fun x => decide (key x = n))
      = (l.find? (fun x => decide (key x = n))).toList := by
  rw [dedupFirst, dedupFirstAux_filter_key]
  rw [if_neg (List.not_mem_nil n)]

/-- A pointwise weaker filter selects at most as many elements. -/
theorem length_filter_mono {α : Type} (l : List α) (p q : α → Bool)
    (h : ∀ x, p x = true → q x = true) :
    (l.filter p).length ≤ (l.filter q).length := by
  induction l with
  | nil => simp
  | cons x xs ih =>
    rw [List.filter_cons, List.filter_cons]
    by_cases hp : p x = true
    · rw [if_pos hp, if_pos (h x hp)]
      simpa using ih
    · rw [if_neg hp]
      by_cases hq : q x = true
      · rw [if_pos hq]; exact Nat.le_succ_of_le ih
      · rw [if_neg hq]; exact ih

/-- The sum of a function over a filtered list is bounded by the sum over
the whole list. -/
theorem sum_map_filter_le {α : Type} (l : List α) (p : α → Bool) (f : α → Nat) :
    ((l.filter p).map f).sum ≤ (l.map f).sum := by
  induction l with
  | nil => simp
  | cons x xs ih =>
    rw [List.filter_cons]
    by_cases hp : p x = true
    · rw [if_pos hp]; simpa using ih
    · rw [if_neg hp]
      simp only [List.map_cons, List.sum_cons]
      omega

/-- With no relayout data the default viewport is chosen. -/
theorem pickViewport_none (c : Center) : pickViewport c none = some (6, c) := rfl

/-- With relayout data holding both viewport keys the echoed viewport is
reused. -/
theorem pickViewport_supplied (c : Center) (r : RelayoutData) (z : ℚ) (cc : Center)
    (hz : r.lookup "mapbox.zoom" = some (RVal.num z))
    (hc : r.lookup "mapbox.center" = some (RVal.ctr cc)) :
    pickViewport c (some r) = some (z, cc) := by
  cases r with
  | nil => simp at hz
  | cons a as =>
    simp only [pickViewport, List.isEmpty_cons, hz, hc]
    rfl

/-- With relayout data lacking the zoom key the default viewport is
chosen. -/
theorem pickViewport_no_zoom (c : Center) (r : RelayoutData)
    (hz : r.lookup "mapbox.zoom" = none) :
    pickViewport c (some r) = some (6, c) := by
  cases r with
  | nil => rfl
  | cons a as =>
    simp only [pickViewport, List.isEmpty_cons, hz]
    rfl

/-- On a loaded state the roads-section map viewport is exactly the
viewport pickViewport chose. -/
theorem mapViewport_roads_loaded {P RG Rg : Type} (E : GeoEngine P RG Rg)
    (st : AppState P RG) (d : ℚ) (rl : Option RelayoutData)
    (h : st.loaded = true) :
    mapViewport (update_roads_section E st d rl)
      = (pickViewport st.mapCenter rl).map (fun vc => (some vc.1, some vc.2)) := by
  dsimp [update_roads_section]
  rw [h]
  cases hpv : pickViewport st.mapCenter rl with
  | none => simp [mapViewport]
  | some vc =>
    obtain ⟨z, c⟩ := vc
    simp [mapViewport]

/-- On a loaded state the ports-section map viewport is exactly the
viewport pickViewport chose. -/
theorem mapViewport_ports_loaded {P RG Rg : Type} (E : GeoEngine P RG Rg)
    (st : AppState P RG) (d : ℚ) (rl : Option RelayoutData)
    (h : st.loaded = true) :
    mapViewport (update_ports_section E st d rl)
      = (pickViewport st.mapCenter rl).map (fun vc => (some vc.1, some vc.2)) := by
  dsimp [update_ports_section]
  rw [h]
  cases hpv : pickViewport st.mapCenter rl with
  | none => simp [mapViewport]
  | some vc =>
    obtain ⟨z, c⟩ := vc
    simp [mapViewport]

/-- C1: roads-section conservation.  For every geometry engine, road set,
settlement set and buffer distance d at least 0, the inside count plus
the outside count of the roads-section query equals the total number of
settlements, and the inside population sum plus the outside population
sum equals the total population sum over all settlements. -/
theorem roads_conservation {P RG Rg : Type} (E : GeoEngine P RG Rg)
    (aid : List (RoadRow RG)) (naselja : List (Settlement P)) (d : ℚ)
    (hd : 0 ≤ d) :
    (roadsQuery E aid naselja d).countIn + (roadsQuery E aid naselja d).countOut
        = naselja.length ∧
      (roadsQuery E aid naselja d).popIn + (roadsQuery E aid naselja d).popOut
        = (naselja.map (fun s => s.BR_ST_01)).sum := by
  dsimp [roadsQuery]
  constructor
  · have h := List.length_filter_le
      (fun s => E.within s.geom (roadsDissolved E aid d)) naselja
    omega
  · have h := sum_map_filter_le naselja
      (fun s => E.within s.geom (roadsDissolved E aid d)) (fun s => s.BR_ST_01)
    omega

/-- Witness for C1 at the sample data and distance 5. -/
theorem roads_conservation_witness :
    (0 : ℚ) ≤ 5 ∧
      ((roadsQuery discEngine sampleRoads sampleNas 5).countIn
            + (roadsQuery discEngine sampleRoads sampleNas 5).countOut
          = sampleNas.length ∧
        (roadsQuery discEngine sampleRoads sampleNas 5).popIn
            + (roadsQuery discEngine sampleRoads sampleNas 5).popOut
          = (sampleNas.map (fun s => s.BR_ST_01)).sum) :=
  ⟨by decide, roads_conservation discEngine sampleRoads sampleNas 5 (by decide)⟩

/-- C2 counterexample: at the sample data (two selected ports sharing one
name) and distance 10, the de-duplicated inside count plus the outside
count of the ports section is 3, while the de-duplicated-by-name total
port count of its port collection is 2, so the claimed conservation
against the de-duplicated total fails. -/
theorem ports_dedup_total_conservation_cex :
    ¬ ((portsQuery discEngine sampleState.largeSettlements sampleState.mLuke 10).countIn
          + (portsQuery discEngine sampleState.largeSettlements sampleState.mLuke
              10).countOut
        = (dedupFirst (fun p => p.NAZIV) sampleState.mLuke).length) := by
  decide

/-- C2 as amended: for every buffer distance d at least 0 the ports
section de-duplicated inside count plus its outside count equals the raw
(non-de-duplicated) row count of the port collection. -/
theorem ports_conservation_raw_total {P RG Rg : Type} (E : GeoEngine P RG Rg)
    (large_settlements : List (Settlement P)) (m_luke : List (Port P)) (d : ℚ)
    (hd : 0 ≤ d) :
    (portsQuery E large_settlements m_luke d).countIn
        + (portsQuery E large_settlements m_luke d).countOut
      = m_luke.length := by
  dsimp [portsQuery]
  have h1 := dedupFirst_length_le (fun p => p.NAZIV)
    (m_luke.filter (fun p => E.within p.geom (portsDissolved E large_settlements d)))
  have h2 := List.length_filter_le
    (fun p => E.within p.geom (portsDissolved E large_settlements d)) m_luke
  omega

/-- Witness for the amended C2 at the sample data and distance 10. -/
theorem ports_conservation_raw_total_witness :
    (0 : ℚ) ≤ 10 ∧
      (portsQuery discEngine sampleState.largeSettlements sampleState.mLuke 10).countIn
          + (portsQuery discEngine sampleState.largeSettlements sampleState.mLuke
              10).countOut
        = sampleState.mLuke.length :=
  ⟨by decide, ports_conservation_raw_total discEngine sampleState.largeSettlements
    sampleState.mLuke 10 (by decide)⟩

/-- C3: ports-section outside-count asymmetry.  For every buffer distance
d at least 0 the outside count equals the raw row count of the port
collection minus the de-duplicated inside count, and the inside count is
the length of the name-de-duplicated selection. -/
theorem ports_outside_count_asymmetry {P RG Rg : Type} (E : GeoEngine P RG Rg)
    (large_settlements : List (Settlement P)) (m_luke : List (Port P)) (d : ℚ)
    (hd : 0 ≤ d) :
    (portsQuery E large_settlements m_luke d).countOut
        = m_luke.length - (dedupFirst (fun p => p.NAZIV)
            (m_luke.filter (fun p => E.within p.geom
              (portsDissolved E large_settlements d)))).length ∧
      (portsQuery E large_settlements m_luke d).countIn
        = (dedupFirst (fun p => p.NAZIV)
            (m_luke.filter (fun p => E.within p.geom
              (portsDissolved E large_settlements d)))).length :=
  ⟨rfl, rfl⟩

/-- Witness for C3 at the sample data and distance 10. -/
theorem ports_outside_count_asymmetry_witness :
    (0 : ℚ) ≤ 10 ∧
      ((portsQuery discEngine sampleState.largeSettlements sampleState.mLuke
            10).countOut
          = sampleState.mLuke.length - (dedupFirst (fun p => p.NAZIV)
              (sampleState.mLuke.filter (fun p => discEngine.within p.geom
                (portsDissolved discEngine sampleState.largeSettlements 10)))).length ∧
        (portsQuery discEngine sampleState.largeSettlements sampleState.mLuke
            10).countIn
          = (dedupFirst (fun p => p.NAZIV)
              (sampleState.mLuke.filter (fun p => discEngine.within p.geom
                (portsDissolved discEngine sampleState.largeSettlements 10)))).length) :=
  ⟨by decide, ports_outside_count_asymmetry discEngine sampleState.largeSettlements
    sampleState.mLuke 10 (by decide)⟩

/-- C4: first occurrence kept.  For every buffer distance d at least 0
and every name carried by more than one selected port row, exactly one
port with that name appears in the selected-port output, namely the one
found first in the selection, which preserves the input ordering, so it
is the first-encountered selected row with that name. -/
theorem ports_dedup_keeps_first_selected {P RG Rg : Type} (E : GeoEngine P RG Rg)
    (large_settlements : List (Settlement P)) (m_luke : List (Port P)) (d : ℚ)
    (n : String) (hd : 0 ≤ d)
    (hdup : 1 < ((m_luke.filter (fun p => E.within p.geom
          (portsDissolved E large_settlements d))).filter
        (fun p => decide (p.NAZIV = n))).length) :
    ∃ q, (m_luke.filter (fun p => E.within p.geom
          (portsDissolved E large_settlements d))).find?
          (fun p => decide (p.NAZIV = n)) = some q ∧
        (portsQuery E large_settlements m_luke d).selected.filter
          (fun p => decide (p.NAZIV = n)) = [q] := by
  cases hf : (m_luke.filter (fun p => E.within p.geom
      (portsDissolved E large_settlements d))).find?
      (fun p => decide (p.NAZIV = n)) with
  | none =>
    exfalso
    rw [List.find?_eq_none] at hf
    have hnil : ((m_luke.filter (fun p => E.within p.geom
        (portsDissolved E large_settlements d))).filter
        (fun p => decide (p.NAZIV = n))) = [] := by
      apply List.filter_eq_nil_iff.mpr
      intro a ha
      simpa using hf a ha
    rw [hnil] at hdup
    simp at hdup
  | some q =>
    refine ⟨q, rfl, ?_⟩
    have hk := dedupFirst_filter_key (fun p : Port P => p.NAZIV) n
      (m_luke.filter (fun p => E.within p.geom (portsDissolved E large_settlements d)))
    dsimp [portsQuery]
    rw [hk, hf]
    rfl

/-- Witness for C4 at the sample data, distance 10 and the duplicated
name. -/
theorem ports_dedup_keeps_first_selected_witness :
    (0 : ℚ) ≤ 10 ∧
      1 < ((sampleState.mLuke.filter (fun p => discEngine.within p.geom
            (portsDissolved discEngine sampleState.largeSettlements 10))).filter
          (fun p => decide (p.NAZIV = "Marina X"))).length ∧
      (∃ q, (sampleState.mLuke.filter (fun p => discEngine.within p.geom
            (portsDissolved discEngine sampleState.largeSettlements 10))).find?
            (fun p => decide (p.NAZIV = "Marina X")) = some q ∧
          (portsQuery discEngine sampleState.largeSettlements sampleState.mLuke
            10).selected.filter (fun p => decide (p.NAZIV = "Marina X")) = [q]) :=
  ⟨by decide, by decide, ports_dedup_keeps_first_selected discEngine
    sampleState.largeSettlements sampleState.mLuke 10 "Marina X" (by decide)
    (by decide)⟩

/-- C5: load-failure short circuit.  If the startup load failed, then for
every parameter value and every viewport state each section callback
returns the fixed error placeholder: the empty error figure as map, the
load error message as title, and the empty error figure as chart; the
output is a constant that involves no spatial computation. -/
theorem load_failure_short_circuit {P RG Rg : Type} (E : GeoEngine P RG Rg)
    (fname : String) (d : ℚ) (rl : Option RelayoutData) :
    update_roads_section E (loadData E (Except.error fname)) d rl
        = some (errorFig Rg, ERROR_MESSAGE fname, errorFig Rg) ∧
      update_ports_section E (loadData E (Except.error fname)) d rl
        = some (errorFig Rg, ERROR_MESSAGE fname, errorFig Rg) ∧
      (errorFig Rg).traces = [] :=
  ⟨rfl, rfl, rfl⟩

/-- C6: viewport preservation.  For every loaded state, if the relayout
data supplies a previously observed zoom and center then both section
maps echo exactly that zoom and center; with no relayout data both maps
use the fixed default zoom 6 and the default center computed from the
centroid of the filtered road network. -/
theorem viewport_preservation {P RG Rg : Type} (E : GeoEngine P RG Rg)
    (raw : RawData P RG) (d : ℚ) :
    (∀ (r : RelayoutData) (z : ℚ) (c : Center),
        r.lookup "mapbox.zoom" = some (RVal.num z) →
        r.lookup "mapbox.center" = some (RVal.ctr c) →
        mapViewport (update_roads_section E (loadData E (Except.ok raw)) d (some r))
            = some (some z, some c) ∧
          mapViewport (update_ports_section E (loadData E (Except.ok raw)) d (some r))
            = some (some z, some c)) ∧
      (mapViewport (update_roads_section E (loadData E (Except.ok raw)) d none)
          = some (some 6, some (E.centroidLonLat
              ((raw.roads.filter (fun rr => rr.KOD == 1 || rr.KOD == 3)).map
                (fun rr => rr.geom)))) ∧
        mapViewport (update_ports_section E (loadData E (Except.ok raw)) d none)
          = some (some 6, some (E.centroidLonLat
              ((raw.roads.filter (fun rr => rr.KOD == 1 || rr.KOD == 3)).map
                (fun rr => rr.geom))))) := by
  constructor
  · intro r z c hz hc
    constructor
    · rw [mapViewport_roads_loaded E _ d _ rfl, pickViewport_supplied _ r z c hz hc]
      rfl
    · rw [mapViewport_ports_loaded E _ d _ rfl, pickViewport_supplied _ r z c hz hc]
      rfl
  · constructor
    · rw [mapViewport_roads_loaded E _ d _ rfl, pickViewport_none]
      rfl
    · rw [mapViewport_ports_loaded E _ d _ rfl, pickViewport_none]
      rfl

/-- Witness for C6 at the sample data, distance 5 and a sample supplied
viewport. -/
theorem viewport_preservation_witness :
    sampleRelayout.lookup "mapbox.zoom" = some (RVal.num 7) ∧
      sampleRelayout.lookup "mapbox.center" = some (RVal.ctr { lat := 43, lon := 16 }) ∧
      mapViewport (update_roads_section discEngine
          (loadData discEngine (Except.ok sampleRaw)) 5 (some sampleRelayout))
        = some (some 7, some { lat := 43, lon := 16 }) ∧
      mapViewport (update_ports_section discEngine
          (loadData discEngine (Except.ok sampleRaw)) 5 (some sampleRelayout))
        = some (some 7, some { lat := 43, lon := 16 }) :=
  ⟨by decide, by decide,
    ((viewport_preservation discEngine sampleRaw 5).1 sampleRelayout 7
      { lat := 43, lon := 16 } (by decide) (by decide)).1,
    ((viewport_preservation discEngine sampleRaw 5).1 sampleRelayout 7
      { lat := 43, lon := 16 } (by decide) (by decide)).2⟩

/-- C7: monotonicity in the buffer radius.  For all distances d1 and d2
with 0 at most d1 and d1 less than d2, under the geometry-engine
guarantee that the dissolved buffer of the larger radius contains the
dissolved buffer of the smaller radius, the roads-section inside count at
d1 is at most the inside count at d2. -/
theorem roads_inside_count_monotone {P RG Rg : Type} (E : GeoEngine P RG Rg)
    (aid : List (RoadRow RG)) (naselja : List (Settlement P)) (d1 d2 : ℚ)
    (hd1 : 0 ≤ d1) (hlt : d1 < d2)
    (hmono : ∀ p : P, E.within p (roadsDissolved E aid d1) = true →
      E.within p (roadsDissolved E aid d2) = true) :
    (roadsQuery E aid naselja d1).countIn ≤ (roadsQuery E aid naselja d2).countIn := by
  dsimp [roadsQuery]
  exact length_filter_mono naselja _ _ (fun s h => hmono s.geom h)

/-- Witness for C7 at the sample data and distances 2 and 3, with the
containment guarantee proved for the concrete disc engine. -/
theorem roads_inside_count_monotone_witness :
    (0 : ℚ) ≤ 2 ∧ (2 : ℚ) < 3 ∧
      (roadsQuery discEngine sampleRoads sampleNas 2).countIn
        ≤ (roadsQuery discEngine sampleRoads sampleNas 3).countIn := by
  refine ⟨by decide, by decide,
    roads_inside_count_monotone discEngine sampleRoads sampleNas 2 3 (by decide)
      (by decide) ?_⟩
  intro p h
  simp only [roadsDissolved, discEngine, sampleRoads, List.map_cons, List.map_nil,
    List.flatten, List.append_nil, discWithin, List.any_cons, List.any_nil,
    Bool.or_false, decide_eq_true_eq] at h ⊢
  have hden2 : ((2 : ℚ)).den = 1 := rfl
  have hnum2 : ((2 : ℚ)).num = 2 := rfl
  have hden3 : ((3 : ℚ)).den = 1 := rfl
  have hnum3 : ((3 : ℚ)).num = 3 := rfl
  rw [hden2, hnum2] at h
  rw [hden3, hnum3]
  push_cast at h ⊢
  nlinarith [h]

/-- C8 counterexample: at the sample data and distance 10 the ports map
traces appear in the order buffer zone, large settlements (the context
collection), all ports (the base collection), selected ports, which
differs from the claimed fixed order in which the base collection
precedes the context collection. -/
theorem map_layer_order_cex :
    mapTraceNames (update_ports_section discEngine sampleState 10 none)
        = some ["Buffer Zone", "Large Settlements (>10k)", "All Ports",
            "Selected Ports"] ∧
      ["Buffer Zone", "Large Settlements (>10k)", "All Ports", "Selected Ports"]
        ≠ ["Buffer Zone", "All Ports", "Large Settlements (>10k)", "Selected Ports"] :=
  ⟨by decide, by decide⟩

/-- C8 as amended: in every map either section produces on a loaded
state, the roads map holds, in order, the translucent dissolved buffer
polygon, the full settlement collection as small markers without hover
text, and the selected settlements as larger markers with name labels;
the ports map holds, in order, the buffer polygon, the large-settlement
context collection with name labels, the full port collection as small
markers without hover text, and the selected ports with name labels —
that is, in the ports section the context collection precedes the base
collection. -/
theorem map_layer_order_actual {P RG Rg : Type} (E : GeoEngine P RG Rg)
    (st : AppState P RG) (d : ℚ) (rl : Option RelayoutData) (z : ℚ) (c : Center)
    (hload : st.loaded = true)
    (hvp : pickViewport st.mapCenter rl = some (z, c)) :
    (update_roads_section E st d rl).map (fun o => o.1.traces)
        = some [Trace.choroplethmapbox (E.regionWGS84 (roadsDissolved E st.aid d))
            "rgba(0, 100, 255, 0.4)" "cyan" "Buffer Zone",
          Trace.scattermapbox (st.naselja.map (fun s => E.toWGS84 s.geom))
            { size := 5, color := "#7f7f7f", opacity := some (7 / 10), symbol := none }
            none "none" "All Settlements",
          Trace.scattermapbox ((roadsQuery E st.aid st.naselja d).selected.map
              (fun s => E.toWGS84 s.geom))
            { size := 8, color := "yellow", opacity := some (9 / 10), symbol := none }
            (some ((roadsQuery E st.aid st.naselja d).selected.map
              (fun s => s.NAZIV_NAS)))
            "text" "Selected Settlements"] ∧
      (update_ports_section E st d rl).map (fun o => o.1.traces)
        = some [Trace.choroplethmapbox
            (E.regionWGS84 (portsDissolved E st.largeSettlements d))
            "rgba(255, 0, 100, 0.4)" "magenta" "Buffer Zone",
          Trace.scattermapbox (st.largeSettlements.map (fun s => E.toWGS84 s.geom))
            { size := 10, color := "cyan", opacity := none, symbol := some "star" }
            (some (st.largeSettlements.map (fun s => s.NAZIV_NAS))) "text"
            "Large Settlements (>10k)",
          Trace.scattermapbox (st.mLuke.map (fun p => E.toWGS84 p.geom))
            { size := 5, color := "#7f7f7f", opacity := some (7 / 10), symbol := none }
            none "none" "All Ports",
          Trace.scattermapbox
            ((portsQuery E st.largeSettlements st.mLuke d).selected.map
              (fun p => E.toWGS84 p.geom))
            { size := 8, color := "lime", opacity := some (9 / 10), symbol := none }
            (some ((portsQuery E st.largeSettlements st.mLuke d).selected.map
              (fun p => p.NAZIV)))
            "text" "Selected Ports"] := by
  constructor
  · simp only [update_roads_section, hload, hvp]
    rfl
  · simp only [update_ports_section, hload, hvp]
    rfl

/-- Witness for the amended C8 at the sample data and distance 5. -/
theorem map_layer_order_actual_witness :
    sampleState.loaded = true ∧
      pickViewport sampleState.mapCenter none = some (6, { lat := 0, lon := 0 }) ∧
      ((update_roads_section discEngine sampleState 5 none).map (fun o => o.1.traces)
          = some [Trace.choroplethmapbox
              (discEngine.regionWGS84 (roadsDissolved discEngine sampleState.aid 5))
              "rgba(0, 100, 255, 0.4)" "cyan" "Buffer Zone",
            Trace.scattermapbox (sampleState.naselja.map
                (fun s => discEngine.toWGS84 s.geom))
              { size := 5, color := "#7f7f7f", opacity := some (7 / 10), symbol := none }
              none "none" "All Settlements",
            Trace.scattermapbox
              ((roadsQuery discEngine sampleState.aid sampleState.naselja 5).selected.map
                (fun s => discEngine.toWGS84 s.geom))
              { size := 8, color := "yellow", opacity := some (9 / 10), symbol := none }
              (some ((roadsQuery discEngine sampleState.aid
                  sampleState.naselja 5).selected.map (fun s => s.NAZIV_NAS)))
              "text" "Selected Settlements"] ∧
        (update_ports_section discEngine sampleState 5 none).map (fun o => o.1.traces)
          = some [Trace.choroplethmapbox
              (discEngine.regionWGS84
                (portsDissolved discEngine sampleState.largeSettlements 5))
              "rgba(255, 0, 100, 0.4)" "magenta" "Buffer Zone",
            Trace.scattermapbox (sampleState.largeSettlements.map
                (fun s => discEngine.toWGS84 s.geom))
              { size := 10, color := "cyan", opacity := none, symbol := some "star" }
              (some (sampleState.largeSettlements.map (fun s => s.NAZIV_NAS))) "text"
              "Large Settlements (>10k)",
            Trace.scattermapbox (sampleState.mLuke.map
                (fun p => discEngine.toWGS84 p.geom))
              { size := 5, color := "#7f7f7f", opacity := some (7 / 10), symbol := none }
              none "none" "All Ports",
            Trace.scattermapbox
              ((portsQuery discEngine sampleState.largeSettlements
                  sampleState.mLuke 5).selected.map (fun p => discEngine.toWGS84 p.geom))
              { size := 8, color := "lime", opacity := some (9 / 10), symbol := none }
              (some ((portsQuery discEngine sampleState.largeSettlements
                  sampleState.mLuke 5).selected.map (fun p => p.NAZIV)))
              "text" "Selected Ports"]) :=
  ⟨rfl, rfl, map_layer_order_actual discEngine sampleState 5 none 6
    { lat := 0, lon := 0 } rfl rfl⟩

/-- C9: the supplied viewport is reused only when the relayout data holds
the key mapbox.zoom; in both sections, for every relayout data lacking
that key (a center alone included) the default centroid-derived center
and the default zoom 6 are used instead. -/
theorem viewport_requires_zoom_key {P RG Rg : Type} (E : GeoEngine P RG Rg)
    (raw : RawData P RG) (d : ℚ) (r : RelayoutData)
    (hz : r.lookup "mapbox.zoom" = none) :
    mapViewport (update_roads_section E (loadData E (Except.ok raw)) d (some r))
        = some (some 6, some (E.centroidLonLat
            ((raw.roads.filter (fun rr => rr.KOD == 1 || rr.KOD == 3)).map
              (fun rr => rr.geom)))) ∧
      mapViewport (update_ports_section E (loadData E (Except.ok raw)) d (some r))
        = some (some 6, some (E.centroidLonLat
            ((raw.roads.filter (fun rr => rr.KOD == 1 || rr.KOD == 3)).map
              (fun rr => rr.geom)))) := by
  constructor
  · rw [mapViewport_roads_loaded E _ d _ rfl, pickViewport_no_zoom _ r hz]
    rfl
  · rw [mapViewport_ports_loaded E _ d _ rfl, pickViewport_no_zoom _ r hz]
    rfl

/-- Witness for C9 at the sample data, distance 5 and a relayout echo
holding only a center. -/
theorem viewport_requires_zoom_key_witness :
    sampleNoZoom.lookup "mapbox.zoom" = none ∧
      (mapViewport (update_roads_section discEngine
            (loadData discEngine (Except.ok sampleRaw)) 5 (some sampleNoZoom))
          = some (some 6, some (discEngine.centroidLonLat
              ((sampleRaw.roads.filter (fun rr => rr.KOD == 1 || rr.KOD == 3)).map
                (fun rr => rr.geom)))) ∧
        mapViewport (update_ports_section discEngine
            (loadData discEngine (Except.ok sampleRaw)) 5 (some sampleNoZoom))
          = some (some 6, some (discEngine.centroidLonLat
              ((sampleRaw.roads.filter (fun rr => rr.KOD == 1 || rr.KOD == 3)).map
                (fun rr => rr.geom))))) :=
  ⟨by decide, viewport_requires_zoom_key discEngine sampleRaw 5 sampleNoZoom
    (by decide)⟩

/-- C10: de-duplication happens only after the containment selection.
The selected-port output equals the name-de-duplication of the rows that
pass the containment test, and inserting anywhere a row that lies outside
the buffer zone leaves the selected-port output unchanged, so rows
outside the buffer never influence which duplicate is kept and never
suppress a selected duplicate-named port. -/
theorem ports_dedup_after_selection {P RG Rg : Type} (E : GeoEngine P RG Rg)
    (large_settlements : List (Settlement P)) (d : ℚ) (l₁ l₂ : List (Port P))
    (r : Port P) (hd : 0 ≤ d)
    (hr : E.within r.geom (portsDissolved E large_settlements d) = false) :
    (portsQuery E large_settlements (l₁ ++ r :: l₂) d).selected
        = (portsQuery E large_settlements (l₁ ++ l₂) d).selected ∧
      (portsQuery E large_settlements (l₁ ++ l₂) d).selected
        = dedupFirst (fun p => p.NAZIV)
            ((l₁ ++ l₂).filter (fun p => E.within p.geom
              (portsDissolved E large_settlements d))) := by
  refine ⟨?_, rfl⟩
  dsimp [portsQuery]
  rw [List.filter_append, List.filter_append, List.filter_cons, hr]
  simp

/-- Witness for C10 at the sample data and distance 10, inserting the far
port after the two duplicate-named ports. -/
theorem ports_dedup_after_selection_witness :
    (0 : ℚ) ≤ 10 ∧
      discEngine.within farPort.geom
          (portsDissolved discEngine sampleState.largeSettlements 10) = false ∧
      ((portsQuery discEngine sampleState.largeSettlements
            (dupPorts ++ farPort :: []) 10).selected
          = (portsQuery discEngine sampleState.largeSettlements
              (dupPorts ++ []) 10).selected ∧
        (portsQuery discEngine sampleState.largeSettlements
            (dupPorts ++ []) 10).selected
          = dedupFirst (fun p => p.NAZIV)
              ((dupPorts ++ []).filter (fun p => discEngine.within p.geom
                (portsDissolved discEngine sampleState.largeSettlements 10)))) :=
  ⟨by decide, by decide, ports_dedup_after_selection discEngine
    sampleState.largeSettlements 10 dupPorts [] farPort (by decide) (by decide)⟩
